import Mathlib

set_option maxRecDepth 10000

/-!
Verification development for the TeamsLogAnalyzer repository.

The repository contains five Python revisions of a SIP/Teams log analyzer:
`SIP.py` (block segmentation + field extraction), `SIP2.py` (session
correlation emitting call records), `TeamsLog.py`, `TeasmLogsV2.py` and
`TeasmLogsV3.py` (taxonomy classification and aggregation of call-record
spreadsheets).  Each Python function used by the claims is shallowly
embedded below as an executable Lean definition; log text is modelled as
`String` or `List Char`, regular-expression searches are modelled by
explicit left-to-right scanners with the same match semantics as the
anchored or searching patterns in the source.
-/

/- ### Generic character-list helpers (Python `re` and `str` semantics) -/

/-- Bool-valued prefix test on character lists. -/
def beginsWith : List Char → List Char → Bool
  | [], _ => true
  | _ :: _, [] => false
  | a :: as, b :: bs => a == b && beginsWith as bs

/-- Python `needle in hay` substring test. -/
def containsSub (needle : List Char) : List Char → Bool
  | [] => beginsWith needle []
  | c :: cs => beginsWith needle (c :: cs) || containsSub needle cs

/-- Match a list of single-character predicates as a prefix of the input;
models an anchored regex made of single-character atoms. -/
def shapeMatch : List (Char → Bool) → List Char → Bool
  | [], _ => true
  | _ :: _, [] => false
  | p :: ps, c :: cs => p c && shapeMatch ps cs

/-- The leading-timestamp pattern `\d\d:\d\d:\d\d\.\d\d\d` (HH:MM:SS.mmm),
one predicate per character. -/
def tsPats : List (Char → Bool) :=
  [Char.isDigit, Char.isDigit, (· == ':'), Char.isDigit, Char.isDigit,
   (· == ':'), Char.isDigit, Char.isDigit, (· == '.'), Char.isDigit,
   Char.isDigit, Char.isDigit]

/-- `re.match` of the timestamp pattern at position 0 of a line. -/
def isTimestampLine (line : String) : Bool :=
  shapeMatch tsPats line.data

/-- `re.search` driver: try the position matcher `f` at every position from
left to right, returning the first success (Python regex search order). -/
def scanFor (f : List Char → Option String) : List Char → Option String
  | [] => f []
  | c :: cs =>
    match f (c :: cs) with
    | some r => some r
    | none => scanFor f cs

/-- Match a literal `pre` at the current position, then continue with `k`
on the remaining characters. -/
def tryLit (pre : List Char) (k : List Char → Option String) (cs : List Char) :
    Option String :=
  if beginsWith pre cs then k (List.drop pre.length cs) else none

/-- Worker for `lazyUpTo`: `acc` holds the (reversed) group consumed so far. -/
def lazyGo (stop : Char) (acc : List Char) : List Char → Option String
  | [] => none
  | c :: cs =>
    if c == stop then some (String.mk acc.reverse)
    else if c == '\n' then none
    else lazyGo stop (c :: acc) cs

/-- Lazy group `(.+?)` followed by the character `stop`: the shortest
non-empty newline-free prefix whose next character is `stop`. -/
def lazyUpTo (stop : Char) : List Char → Option String
  | [] => none
  | c :: cs => if c == '\n' then none else lazyGo stop [c] cs

/-- Python `\w` (modelled over ASCII): letter, digit or underscore. -/
def isWordChar (c : Char) : Bool :=
  c.isAlphanum || c == '_'

/-- Character class `[\w:]` used by the SID pattern. -/
def isWordColon (c : Char) : Bool :=
  isWordChar c || c == ':'

/-- Position matcher for `\[SID=([\w:]+)\]`: literal, then a non-empty
greedy `[\w:]` run that must be followed by a closing bracket. -/
def trySidAt (cs : List Char) : Option String :=
  tryLit ("[SID=".data)
    (fun rest =>
      let run := rest.takeWhile isWordColon
      if run = [] then none
      else
        match List.drop run.length rest with
        | ']' :: _ => some (String.mk run)
        | _ => none) cs

/-- Position matcher for `IPG_(\w+)`. -/
def tryIpgAt (cs : List Char) : Option String :=
  tryLit ("IPG_".data)
    (fun rest =>
      let run := rest.takeWhile isWordChar
      if run = [] then none else some (String.mk run)) cs

/-- Position matcher for `Call End Reason: (.+?)$` on a single line
(model lines carry no newline, so `$` is end of input and the lazy group
expands to the whole remainder, which must be non-empty). -/
def tryReasonAt (cs : List Char) : Option String :=
  tryLit ("Call End Reason: ".data)
    (fun rest => if rest = [] then none else some (String.mk rest)) cs

/-- Position matcher for a header pattern `LABEL ([^\n]+)`: the group is
the maximal non-empty newline-free run after the label. -/
def tryHeaderAt (lbl : List Char) (cs : List Char) : Option String :=
  tryLit lbl
    (fun rest =>
      let run := rest.takeWhile (fun c => !(c == '\n'))
      if run = [] then none else some (String.mk run)) cs

/-- Match `\d{1,3}\.` at the current position.  The follow-up dot forces the
greedy 1-3 digit group to consume the whole digit run, so the match succeeds
exactly when the leading digit run has length 1-3 and a dot follows. -/
def matchOctDot (cs : List Char) : Option (List Char × List Char) :=
  let ds := cs.takeWhile Char.isDigit
  if 1 ≤ ds.length ∧ ds.length ≤ 3 then
    match cs.dropWhile Char.isDigit with
    | '.' :: r => some (ds ++ ['.'], r)
    | _ => none
  else none

/-- Match the final greedy `\d{1,3}` (no follow-up): take up to three of the
leading digits, requiring at least one. -/
def matchLastOct (cs : List Char) : Option (List Char × List Char) :=
  let ds := cs.takeWhile Char.isDigit
  if ds.length = 0 then none
  else some (ds.take 3, List.drop 3 ds ++ cs.dropWhile Char.isDigit)

/-- Match the full IPv4 pattern `\d{1,3}\.\d{1,3}\.\d{1,3}\.\d{1,3}` at the
current position, returning the matched text and the rest of the input. -/
def matchIPv4At (cs : List Char) : Option (List Char × List Char) :=
  match matchOctDot cs with
  | none => none
  | some (a, r1) =>
    match matchOctDot r1 with
    | none => none
    | some (b, r2) =>
      match matchOctDot r2 with
      | none => none
      | some (c, r3) =>
        match matchLastOct r3 with
        | none => none
        | some (d, r4) => some (a ++ b ++ c ++ d, r4)

/-- Worker for `findAllIPv4`.  `fuel` bounds the number of scan steps; each
step either advances one position or skips a (strictly-shorter) match, so
fuel equal to the input length is always sufficient. -/
def findAllIPv4Aux : Nat → List Char → List String
  | 0, _ => []
  | _, [] => []
  | fuel + 1, c :: cs =>
    match matchIPv4At (c :: cs) with
    | some (m, rest) => String.mk m :: findAllIPv4Aux fuel rest
    | none => findAllIPv4Aux fuel cs

/-- Python `re.findall` of the IPv4 pattern: leftmost, non-overlapping
matches, scanning resumes after each match. -/
def findAllIPv4 (cs : List Char) : List String :=
  findAllIPv4Aux cs.length cs

/-- `re.search(r'^(\d{2}:\d{2}:\d{2}\.\d{3})', line)`: the group is the
first 12 characters when the anchored pattern matches, else absent
(both analyzers substitute the empty string). -/
def extractTimestamp (cs : List Char) : String :=
  if shapeMatch tsPats cs then String.mk (cs.take 12) else ""

/-- `re.search(r'\[SID=([\w:]+)\]', line)`, empty string when absent. -/
def extractSid (cs : List Char) : String :=
  (scanFor trySidAt cs).getD ""

/-- `re.search(r'IPG_(\w+)', line)`, empty string when absent. -/
def extractIpGroup (cs : List Char) : String :=
  (scanFor tryIpgAt cs).getD ""

/-- Python `str.split` on newline: `''.split` semantics included (a string
with no newline yields one piece; every newline opens a new piece). -/
def splitLines : List Char → List (List Char)
  | [] => [[]]
  | c :: cs =>
    if c = '\n' then [] :: splitLines cs
    else
      match splitLines cs with
      | [] => [[c]]
      | l :: ls => (c :: l) :: ls

/-- Python `'\n'.join` on character lists. -/
def joinChars : List (List Char) → List Char
  | [] => []
  | [l] => l
  | l :: l2 :: ls => l ++ '\n' :: joinChars (l2 :: ls)

/-- Python `'\n'.join` on strings. -/
def joinLines : List String → String
  | [] => ""
  | [l] => l
  | l :: l2 :: ls => l ++ "\n" ++ joinLines (l2 :: ls)

/-- `text.split('\n')` at the string level. -/
def splitLinesStr (text : String) : List String :=
  (splitLines text.data).map String.mk

/-- Python `message.strip()` is falsy exactly when every character of the
message is whitespace; this models that truthiness test. -/
def stripEmpty (m : String) : Bool :=
  m.data.all Char.isWhitespace

/-- Python `dict.get(key, default)` for an integer-keyed table kept in
insertion order. -/
def dictGet (t : List (Nat × String)) (k : Nat) (d : String) : String :=
  match t.find? (fun p => p.1 == k) with
  | some p => p.2
  | none => d

/-- Python `', '.join`. -/
def commaJoin : List String → String
  | [] => ""
  | [x] => x
  | x :: x2 :: xs => x ++ ", " ++ commaJoin (x2 :: xs)

/-- Worker for `msd`; fuel-bounded division loop (fuel `n` suffices since a
natural number has at most `n` decimal digits). -/
def msdAux : Nat → Nat → Nat
  | 0, n => n
  | fuel + 1, n => if n < 10 then n else msdAux fuel (n / 10)

/-- Most significant decimal digit of a natural number.  For a natural
number `n`, Python `str(n).startswith(d)` for a single digit `d` holds
exactly when `msd n` is that digit. -/
def msd (n : Nat) : Nat :=
  msdAux n n

/-- Python `round(x, 2)` modelled over the rationals. -/
def round2 (q : ℚ) : ℚ :=
  ((round (q * 100) : ℤ) : ℚ) / 100

/-- Marker substring `'Incoming SIP Message'`. -/
def incomingMarker : List Char := ("Incoming SIP Message").data

/-- Marker substring `'Outgoing SIP Message'`. -/
def outgoingMarker : List Char := ("Outgoing SIP Message").data

/-- Marker substring `'Call End'`. -/
def callEndMarker : List Char := ("Call End").data

/-- Marker substring `'Released'`. -/
def releasedMarker : List Char := ("Released").data

/- ### SIP2.py - session correlator (`SIPLogAnalyzer.parse_log_file`) -/

namespace SIP2

/-- The `current_session` dictionary: only `caller`, `callee`,
`termination_reason` are ever written; `duration` is read with a default
but never written. -/
structure SessionCtx where
  caller : Option String := none
  callee : Option String := none
  termination_reason : Option String := none
  duration : Option String := none
deriving DecidableEq, Repr

/-- The fresh/reset session context (`current_session = {}`). -/
def emptyCtx : SessionCtx := {}

/-- One finalized entry of `self.log_entries`, fields in source order. -/
structure CallRecord where
  call_end_time : String
  session_id : String
  ip_group : String
  caller : String
  callee : String
  direction : String
  remote_ip : String
  termination_reason : String
  duration : String
deriving DecidableEq, Repr

/-- Direction extraction in `parse_log_file`: `''` (not `'Internal'`) when
neither marker occurs. -/
def direction (cs : List Char) : String :=
  if containsSub incomingMarker cs then "Incoming"
  else if containsSub outgoingMarker cs then "Outgoing"
  else ""

/-- `ip_matches[1] if len(ip_matches) > 1 else ''`. -/
def remoteIp (cs : List Char) : String :=
  let ips := findAllIPv4 cs
  if ips.length > 1 then ips.getD 1 "" else ""

/-- The caller/callee/termination-reason updates performed on a
timestamp-led line, in source order (`FROM:` then `TO:` then
`Call End Reason:`). -/
def updateCtx (ctx : SessionCtx) (cs : List Char) : SessionCtx :=
  let ctx1 :=
    if containsSub ("FROM:".data) cs then
      match scanFor (tryLit ("FROM: <".data) (lazyUpTo '>')) cs with
      | some g => { ctx with caller := some g }
      | none => ctx
    else ctx
  let ctx2 :=
    if containsSub ("TO:".data) cs then
      match scanFor (tryLit ("TO: <".data) (lazyUpTo '>')) cs with
      | some g => { ctx1 with callee := some g }
      | none => ctx1
    else ctx1
  match scanFor tryReasonAt cs with
  | some r => { ctx2 with termination_reason := some r }
  | none => ctx2

/-- The dictionary appended to `self.log_entries` on a call-end line,
built from the (already updated) running context and the current line. -/
def mkCallRecord (ctx : SessionCtx) (cs : List Char) : CallRecord :=
  { call_end_time := extractTimestamp cs
    session_id := extractSid cs
    ip_group := extractIpGroup cs
    caller := ctx.caller.getD ""
    callee := ctx.callee.getD ""
    direction := direction cs
    remote_ip := remoteIp cs
    termination_reason := ctx.termination_reason.getD "Normal"
    duration := ctx.duration.getD "" }

/-- One iteration of the `for line in file` loop of `parse_log_file`:
no-op unless the line is timestamp-led; otherwise update the running
context and, on a `Call End`/`Released` marker, append one record and
reset the context. -/
def parseLine (st : SessionCtx × List CallRecord) (line : String) :
    SessionCtx × List CallRecord :=
  if shapeMatch tsPats line.data then
    let ctx := updateCtx st.1 line.data
    if containsSub callEndMarker line.data || containsSub releasedMarker line.data then
      (emptyCtx, st.2 ++ [mkCallRecord ctx line.data])
    else (ctx, st.2)
  else st

/-- `parse_log_file`, folded over the (newline-stripped) lines of the log;
returns the final `self.log_entries`. -/
def parse_log_file (lines : List String) : List CallRecord :=
  (lines.foldl parseLine (emptyCtx, [])).2

end SIP2

/- ### SIP.py - line classifier and field extractor (`SIPLogAnalyzer`) -/

namespace SIP

/-- Position matcher for the `message_type` alternation
`(OPTIONS|INVITE|ACK|BYE|CANCEL|REGISTER|NOTIFY|SIP/2\.0 \d{3})`,
alternatives tried in source order at each position. -/
def tryMessageTypeAt (cs : List Char) : Option String :=
  if beginsWith ("OPTIONS".data) cs then some ("OPTIONS")
  else if beginsWith ("INVITE".data) cs then some ("INVITE")
  else if beginsWith ("ACK".data) cs then some ("ACK")
  else if beginsWith ("BYE".data) cs then some ("BYE")
  else if beginsWith ("CANCEL".data) cs then some ("CANCEL")
  else if beginsWith ("REGISTER".data) cs then some ("REGISTER")
  else if beginsWith ("NOTIFY".data) cs then some ("NOTIFY")
  else
    tryLit ("SIP/2.0 ".data)
      (fun rest =>
        if (rest.take 3).length = 3 && (rest.take 3).all Char.isDigit then
          some (String.mk (("SIP/2.0 ".data) ++ rest.take 3))
        else none) cs

/-- Position matcher for `SIP/2\.0 (\d{3})` (the status-code group only). -/
def tryStatusCodeAt (cs : List Char) : Option String :=
  tryLit ("SIP/2.0 ".data)
    (fun rest =>
      if (rest.take 3).length = 3 && (rest.take 3).all Char.isDigit then
        some (String.mk (rest.take 3))
      else none) cs

/-- `re.search` of a `LABEL ([^\n]+)` header pattern over a block. -/
def extractHeader (lbl : String) (cs : List Char) : String :=
  (scanFor (tryHeaderAt lbl.data) cs).getD ""

/-- `re.search` of the IPv4 pattern (first occurrence). -/
def extractIp (cs : List Char) : String :=
  (scanFor (fun s => (matchIPv4At s).map (fun p => String.mk p.1)) cs).getD ""

/-- `re.search` of the `message_type` alternation. -/
def extractMessageType (cs : List Char) : String :=
  (scanFor tryMessageTypeAt cs).getD ""

/-- `re.search(r'SIP/2\.0 (\d{3})', line)`, empty string when absent. -/
def extractStatusCode (cs : List Char) : String :=
  (scanFor tryStatusCodeAt cs).getD ""

/-- Direction in `parse_log_line`: three-valued, `'Internal'` when neither
marker occurs (first match wins). -/
def direction (cs : List Char) : String :=
  if containsSub incomingMarker cs then "Incoming"
  else if containsSub outgoingMarker cs then "Outgoing"
  else "Internal"

/-- `SIPLogAnalyzer.parse_log_line`: the `entry` dictionary as an
association list in insertion order - the eight `patterns` keys, then
`direction`, then `status_code`.  Every extractor substitutes the empty
string when its pattern does not match. -/
def parse_log_line (line : String) : List (String × String) :=
  [("timestamp", extractTimestamp line.data),
   ("ip", extractIp line.data),
   ("sid", extractSid line.data),
   ("message_type", extractMessageType line.data),
   ("call_id", extractHeader ("CALL-ID: ") line.data),
   ("from_uri", extractHeader ("FROM: ") line.data),
   ("to_uri", extractHeader ("TO: ") line.data),
   ("user_agent", extractHeader ("USER-AGENT: ") line.data),
   ("direction", direction line.data),
   ("status_code", extractStatusCode line.data)]

/-- One iteration of the segmentation loop in `analyze_logs`: a
timestamp-led line flushes a non-empty current block; every line is then
appended to the current block. -/
def segmentStep (acc : List String × List String) (line : String) :
    List String × List String :=
  if isTimestampLine line then
    if acc.2 ≠ [] then (acc.1 ++ [joinLines acc.2], [line])
    else (acc.1, acc.2 ++ [line])
  else (acc.1, acc.2 ++ [line])

/-- Segmentation of `analyze_logs` over a list of lines: fold the loop,
flush the final block, and drop blocks that are empty after stripping
whitespace (the `if message.strip()` guard of the parse loop). -/
def segmentLines (lines : List String) : List String :=
  let p := lines.foldl segmentStep ([], [])
  let msgs := if p.2 ≠ [] then p.1 ++ [joinLines p.2] else p.1
  msgs.filter (fun m => !(stripEmpty m))

/-- Segmentation of `analyze_logs` on the whole log text
(`log_content.split('\n')` then the block loop). -/
def segment (text : String) : List String :=
  segmentLines (splitLinesStr text)

end SIP

/- ### Taxonomy tables and classification -/

namespace CallStatus

/-- `CallStatus.SUCCESS` (TeasmLogsV3.py). -/
def SUCCESS : String := "SUCCESS"

/-- `CallStatus.FAILED` (TeasmLogsV3.py). -/
def FAILED : String := "FAILED"

/-- `CallStatus.WARNING` (TeasmLogsV3.py). -/
def WARNING : String := "WARNING"

/-- `CallStatus.INFO` (TeasmLogsV3.py). -/
def INFO : String := "INFO"

end CallStatus

/-- The `sip_explanations` table of TeamsLog.py (the identical table is
re-declared in TeasmLogsV3.py's `load_explanations`). -/
def sipExplanationsTable : List (Nat × String) :=
  [(100, "Call is being processed. Please wait."),
   (180, "Phone is ringing at the destination."),
   (181, "Call is being redirected to another number."),
   (182, "Call is in a queue and will be handled soon."),
   (183, "Call setup is in progress."),
   (200, "Call connected successfully."),
   (202, "Request accepted and will be processed."),
   (300, "Multiple call destinations found."),
   (301, "Call destination has permanently changed."),
   (302, "Call destination is temporarily different."),
   (305, "You must use a specific network route."),
   (380, "Alternative communication method available."),
   (400, "Invalid call request. Check the number."),
   (401, "Authentication required to complete the call."),
   (403, "Call blocked or not allowed."),
   (404, "Phone number or user not found."),
   (405, "Calling method not permitted."),
   (406, "Call cannot be completed due to incompatible settings."),
   (407, "Proxy authentication needed."),
   (408, "No response from the destination. Timeout occurred."),
   (410, "Number is no longer in service."),
   (413, "Call request too large to process."),
   (414, "Phone number too complicated to dial."),
   (415, "Unsupported communication method."),
   (416, "Unrecognized phone number format."),
   (420, "Unsupported communication feature."),
   (421, "Missing required communication feature."),
   (423, "Call setup time too short."),
   (480, "Destination temporarily unavailable."),
   (481, "Call cannot be found or tracked."),
   (482, "Call routing has created a loop."),
   (483, "Too many network hops to complete call."),
   (484, "Incomplete phone number."),
   (485, "Unclear which number to call."),
   (486, "Destination is currently busy."),
   (487, "Call was cancelled or stopped."),
   (488, "Call cannot be accepted by recipient."),
   (500, "Network error. Unable to complete call."),
   (501, "Call feature not supported."),
   (502, "Network routing problem."),
   (503, "Network overloaded or maintenance."),
   (504, "Network route timeout."),
   (505, "Unsupported communication protocol."),
   (513, "Call request too large."),
   (600, "User is busy everywhere."),
   (603, "Call explicitly rejected."),
   (604, "User does not exist."),
   (606, "Call settings prevent connection.")]

namespace TeamsLog

/-- `sip_explanations` as declared in `explain_sip` of TeamsLog.py. -/
def sip_explanations : List (Nat × String) := sipExplanationsTable

/-- The `simple_explanation` lookup of `explain_sip` (TeamsLog.py):
`sip_explanations.get(code, 'Unknown call issue: ' + str(code))`. -/
def simple_explanation (code : Nat) : String :=
  dictGet sip_explanations code ("Unknown call issue: " ++ toString code)

end TeamsLog

namespace TeasmLogsV2

/-- `self.sip_explanations` in TeasmLogsV2.py's `load_explanations` is
declared as the empty dictionary (its body is only a comment). -/
def sip_explanations : List (Nat × String) := []

/-- The `simple_explanation` lookup of `explain_sip` (TeasmLogsV2.py). -/
def simple_explanation (code : Nat) : String :=
  dictGet sip_explanations code ("Unknown call issue: " ++ toString code)

/-- `required_fields` of `process_file` (TeasmLogsV2.py). -/
def requiredFields : List String :=
  ["UPN", "Display Name", "Final SIP code", "Final Microsoft subcode",
   "Final SIP Phrase"]

/-- `process_file` (TeasmLogsV2.py), restricted to the validation step the
claims concern: with one or more required columns missing it fails with a
message naming all of them; otherwise it processes every row (modelled by
the per-row simple explanation of `explain_sip`). -/
def process_file (columns : List String) (rows : List (Nat × Nat × String)) :
    Except String (List String) :=
  let missing_fields := requiredFields.filter (fun f => !(columns.contains f))
  if missing_fields ≠ [] then
    Except.error ("Missing required fields: " ++ commaJoin missing_fields)
  else
    Except.ok (rows.map (fun r => simple_explanation r.1))

end TeasmLogsV2

namespace TeasmLogsV3

/-- `sip_explanations` as declared in `load_explanations` of
TeasmLogsV3.py (the same 48-entry table as TeamsLog.py). -/
def sip_explanations : List (Nat × String) := sipExplanationsTable

/-- The simple-explanation lookup of `explain_sip` (TeasmLogsV3.py):
`self.sip_explanations.get(sip_code, 'Unknown SIP code')` - the fallback
does not mention the code. -/
def simple_explanation (code : Nat) : String :=
  dictGet sip_explanations code ("Unknown SIP code")

/-- `SIPCodeAnalyzer.determine_call_status`: Python tests
`str(sip_code).startswith(d)` for single digits `d`, which for a natural
number holds exactly when the most significant decimal digit is `d`. -/
def determine_call_status (sip_code : Nat) : String :=
  if msd sip_code = 2 then CallStatus.SUCCESS
  else if msd sip_code = 1 then CallStatus.INFO
  else if msd sip_code = 4 ∨ msd sip_code = 5 ∨ msd sip_code = 6 then CallStatus.FAILED
  else if msd sip_code = 3 then CallStatus.WARNING
  else CallStatus.INFO

/-- The call-type counters of `process_file` (TeasmLogsV3.py). -/
structure CallCounters where
  total_attempted_calls : Nat := 0
  successful_calls : Nat := 0
  failed_calls : Nat := 0
  warning_calls : Nat := 0
  info_calls : Nat := 0
deriving DecidableEq, Repr

/-- One iteration of the counting part of the row loop in `process_file`:
a row is `(Final SIP code, Duration (seconds))`; only rows with positive
duration are counted, bucketed by `determine_call_status`. -/
def countCall (c : CallCounters) (row : Nat × ℚ) : CallCounters :=
  let status := determine_call_status row.1
  if 0 < row.2 then
    let c1 : CallCounters :=
      { c with total_attempted_calls := c.total_attempted_calls + 1 }
    if status = CallStatus.SUCCESS then
      { c1 with successful_calls := c1.successful_calls + 1 }
    else if status = CallStatus.FAILED then
      { c1 with failed_calls := c1.failed_calls + 1 }
    else if status = CallStatus.WARNING then
      { c1 with warning_calls := c1.warning_calls + 1 }
    else if status = CallStatus.INFO then
      { c1 with info_calls := c1.info_calls + 1 }
    else c1
  else c

/-- The `'Success Rate (%)'` statistic of `process_file`:
`round(successful/attempted*100 if attempted > 0 else 0, 2)`. -/
def successRate (rows : List (Nat × ℚ)) : ℚ :=
  let c := rows.foldl countCall {}
  round2
    (if 0 < c.total_attempted_calls then
      (c.successful_calls : ℚ) / (c.total_attempted_calls : ℚ) * 100
    else 0)

/-- Spec-side predicate: an attempted call is a record with duration > 0. -/
def attemptedP (row : Nat × ℚ) : Bool :=
  decide (0 < row.2)

/-- Spec-side predicate: a successful attempted call. -/
def successfulP (row : Nat × ℚ) : Bool :=
  decide (0 < row.2 ∧ determine_call_status row.1 = CallStatus.SUCCESS)

/-- Spec-side predicate: a failed attempted call. -/
def failedP (row : Nat × ℚ) : Bool :=
  decide (0 < row.2 ∧ determine_call_status row.1 = CallStatus.FAILED)

end TeasmLogsV3

/-- Spec-side table for claim C2, following the specification's words:
`1xx - Info, 2xx - Success, 3xx - Warning, 4xx/5xx/6xx - Failure`, any
other leading digit defaults to Info. -/
def specStatusOfLeadDigit (d : Nat) : String :=
  if d = 1 then CallStatus.INFO
  else if d = 2 then CallStatus.SUCCESS
  else if d = 3 then CallStatus.WARNING
  else if d = 4 ∨ d = 5 ∨ d = 6 then CallStatus.FAILED
  else CallStatus.INFO

/-- The three-line log text of the specification's correlation scenario,
split into its lines. -/
def scenarioLines : List String :=
  ["10:00:00.000 INVITE ... FROM: <a@x> ... [SID=S1]",
   "10:00:01.000 ... TO: <b@x> ... [SID=S1]",
   "10:00:05.000 Call End ... [SID=S1]"]

/- ### Claim theorems -/

/-- Claim C2: the call-status classification of
`TeasmLogsV3.determine_call_status` is determined by the leading decimal
digit alone, following the spec table (1 to Info, 2 to Success, 3 to
Warning, 4/5/6 to Failure, anything else to Info), and in particular
200 is Success, 180 is Info, 404 is Failure and 302 is Warning. -/
theorem c2_status_by_lead_digit :
    (∀ n : Nat,
      TeasmLogsV3.determine_call_status n = specStatusOfLeadDigit (msd n))
    ∧ TeasmLogsV3.determine_call_status 200 = CallStatus.SUCCESS
    ∧ TeasmLogsV3.determine_call_status 180 = CallStatus.INFO
    ∧ TeasmLogsV3.determine_call_status 404 = CallStatus.FAILED
    ∧ TeasmLogsV3.determine_call_status 302 = CallStatus.WARNING := by
  refine ⟨?_, by decide, by decide, by decide, by decide⟩
  intro n
  unfold TeasmLogsV3.determine_call_status specStatusOfLeadDigit
  split_ifs <;> first | rfl | (exfalso; omega)

/-- Claim C1: in the session correlator of SIP2.py, a timestamp-led line
carrying a `Call End` or `Released` marker makes the fold step append
exactly one record - built from the updated running context together with
the line's own timestamp, sid, IP group, direction and remote IP, its
termination reason defaulting to `Normal` when none was recorded - and
leaves the empty context behind. -/
theorem c1_call_end_emits (ctx : SIP2.SessionCtx)
    (entries : List SIP2.CallRecord) (line : String)
    (hts : shapeMatch tsPats line.data = true)
    (hend : (containsSub callEndMarker line.data
              || containsSub releasedMarker line.data) = true) :
    SIP2.parseLine (ctx, entries) line =
      (SIP2.emptyCtx, entries ++
        [{ call_end_time := extractTimestamp line.data
           session_id := extractSid line.data
           ip_group := extractIpGroup line.data
           caller := (SIP2.updateCtx ctx line.data).caller.getD ""
           callee := (SIP2.updateCtx ctx line.data).callee.getD ""
           direction := SIP2.direction line.data
           remote_ip := SIP2.remoteIp line.data
           termination_reason :=
             (SIP2.updateCtx ctx line.data).termination_reason.getD "Normal"
           duration := (SIP2.updateCtx ctx line.data).duration.getD "" }]) := by
  simp [SIP2.parseLine, SIP2.mkCallRecord, hts, hend]

/-- Witness for C1 at a concrete call-end line. -/
theorem c1_witness :
    SIP2.parseLine (SIP2.emptyCtx, []) "01:02:03.123 Released" =
      (SIP2.emptyCtx,
        [{ call_end_time := "01:02:03.123", session_id := "", ip_group := ""
           caller := "", callee := "", direction := "", remote_ip := ""
           termination_reason := "Normal", duration := "" }]) := by
  rw [c1_call_end_emits SIP2.emptyCtx [] "01:02:03.123 Released"
    (by decide) (by decide)]
  decide

/-- Claim C10: the correlator's fold step is a no-op on every line that
does not begin with the timestamp pattern - the context is unchanged and
nothing is emitted, whatever the line contains. -/
theorem c10_non_timestamp_noop (ctx : SIP2.SessionCtx)
    (entries : List SIP2.CallRecord) (line : String)
    (h : shapeMatch tsPats line.data = false) :
    SIP2.parseLine (ctx, entries) line = (ctx, entries) := by
  simp [SIP2.parseLine, h]

/-- Witness for C10 at a line full of markers but with no leading
timestamp. -/
theorem c10_witness :
    SIP2.parseLine ({ caller := some "x", termination_reason := some "Busy" }, [])
        "Call End Released FROM: <a@b> TO: <c@d> Call End Reason: X" =
      ({ caller := some "x", termination_reason := some "Busy" }, []) :=
  c10_non_timestamp_noop _ _ _ (by decide)

/-- Claim C9: the specification's three-line scenario yields exactly one
call record, with session id `S1`, caller `a@x` and callee `b@x`. -/
theorem c9_scenario :
    (SIP2.parse_log_file scenarioLines).length = 1
    ∧ (SIP2.parse_log_file scenarioLines).map (fun r => r.session_id) = ["S1"]
    ∧ (SIP2.parse_log_file scenarioLines).map (fun r => r.caller) = ["a@x"]
    ∧ (SIP2.parse_log_file scenarioLines).map (fun r => r.callee) = ["b@x"] := by
  decide

/-- Counterexample for C7 as stated: in TeasmLogsV3.py an unknown status
code (999 is not in the table) yields the fixed string `Unknown SIP code`,
not a synthesized string containing the code. -/
theorem c7_counterexample :
    TeasmLogsV3.sip_explanations.find? (fun p => p.1 == 999) = none
    ∧ TeasmLogsV3.simple_explanation 999 = "Unknown SIP code"
    ∧ TeasmLogsV3.simple_explanation 999 ≠ "Unknown call issue: 999" := by
  decide

/-- Claim C7 (amended): for every status code outside the taxonomy table,
classification never fails; TeamsLog.py and TeasmLogsV2.py synthesize
`Unknown call issue:` followed by the code, while TeasmLogsV3.py returns
the constant `Unknown SIP code`, which does not contain the code. -/
theorem c7_unknown_code (code : Nat)
    (h : TeamsLog.sip_explanations.find? (fun p => p.1 == code) = none)
    (h3 : TeasmLogsV3.sip_explanations.find? (fun p => p.1 == code) = none) :
    TeamsLog.simple_explanation code = "Unknown call issue: " ++ toString code
    ∧ TeasmLogsV2.simple_explanation code =
        "Unknown call issue: " ++ toString code
    ∧ TeasmLogsV3.simple_explanation code = "Unknown SIP code" := by
  refine ⟨?_, ?_, ?_⟩
  · simp [TeamsLog.simple_explanation, dictGet, h]
  · simp [TeasmLogsV2.simple_explanation, TeasmLogsV2.sip_explanations, dictGet]
  · simp [TeasmLogsV3.simple_explanation, dictGet, h3]

/-- Witness for C7 at the unknown code 999. -/
theorem c7_witness :
    TeamsLog.simple_explanation 999 = "Unknown call issue: 999"
    ∧ TeasmLogsV2.simple_explanation 999 = "Unknown call issue: 999"
    ∧ TeasmLogsV3.simple_explanation 999 = "Unknown SIP code" := by
  obtain ⟨h1, h2, h3⟩ := c7_unknown_code 999 (by decide) (by decide)
  exact ⟨h1.trans (by decide), h2.trans (by decide), h3⟩

/-- Claim C8: with one or more required columns missing, `process_file` of
TeasmLogsV2.py fails with a message naming all missing required columns
and produces no processed output. -/
theorem c8_missing_fields (columns : List String)
    (rows : List (Nat × Nat × String))
    (h : TeasmLogsV2.requiredFields.filter (fun f => !(columns.contains f)) ≠ []) :
    TeasmLogsV2.process_file columns rows =
      Except.error ("Missing required fields: " ++
        commaJoin (TeasmLogsV2.requiredFields.filter (fun f => !(columns.contains f))))
    ∧ ∀ out, TeasmLogsV2.process_file columns rows ≠ Except.ok out := by
  constructor
  · simp only [TeasmLogsV2.process_file]
    rw [if_pos h]
  · intro out
    simp only [TeasmLogsV2.process_file]
    rw [if_pos h]
    exact fun hc => Except.noConfusion hc

/-- Witness for C8: with only the UPN column present, the error names the
other four required columns. -/
theorem c8_witness :
    TeasmLogsV2.process_file ["UPN"] [] =
      Except.error
        "Missing required fields: Display Name, Final SIP code, Final Microsoft subcode, Final SIP Phrase" :=
  ((c8_missing_fields ["UPN"] [] (by decide)).1).trans
    (congrArg Except.error (by decide))

/-- Counterexample for C4 as stated: the record produced by
`parse_log_line` of SIP.py has ten keys - `remote_ip` and `ip_group` are
not among them. -/
theorem c4_counterexample :
    ((SIP.parse_log_line "x").map Prod.fst).length = 10
    ∧ ¬ ("remote_ip" ∈ (SIP.parse_log_line "x").map Prod.fst)
    ∧ ¬ ("ip_group" ∈ (SIP.parse_log_line "x").map Prod.fst) := by
  decide

/-- Claim C4 (amended): field extraction is total - for every message
block the record contains exactly the keys `timestamp, ip, sid,
message_type, call_id, from_uri, to_uri, user_agent, direction,
status_code`, in this order, each extractor substituting the empty string
when its pattern does not match. -/
theorem c4_total_extraction (block : String) :
    (SIP.parse_log_line block).map Prod.fst =
      ["timestamp", "ip", "sid", "message_type", "call_id", "from_uri",
       "to_uri", "user_agent", "direction", "status_code"]
    ∧ (SIP.parse_log_line block).length = 10 :=
  ⟨rfl, rfl⟩

/-- Counterexample for C6 as stated: a call-end block containing neither
direction marker yields an emitted record whose direction is the empty
string, not `Internal`. -/
theorem c6_counterexample :
    containsSub incomingMarker ("01:02:03.123 Call End x").data = false
    ∧ containsSub outgoingMarker ("01:02:03.123 Call End x").data = false
    ∧ (SIP2.parse_log_file ["01:02:03.123 Call End x"]).map
        (fun r => r.direction) = [""]
    ∧ ("" : String) ≠ "Internal" := by
  decide

/-- Claim C6 (amended): the field extractor's direction is three-valued
with first match winning - Incoming, then Outgoing, and Internal when
neither marker occurs - while the session correlator of SIP2.py computes
the empty string instead of Internal for a block with neither marker, so
emitted call records carry the empty direction there. -/
theorem c6_direction (block : String) :
    (containsSub incomingMarker block.data = true →
      SIP.direction block.data = "Incoming")
    ∧ (containsSub incomingMarker block.data = false →
        containsSub outgoingMarker block.data = true →
        SIP.direction block.data = "Outgoing")
    ∧ (containsSub incomingMarker block.data = false →
        containsSub outgoingMarker block.data = false →
        SIP.direction block.data = "Internal"
        ∧ SIP2.direction block.data = "") := by
  refine ⟨fun h => ?_, fun h1 h2 => ?_, fun h1 h2 => ⟨?_, ?_⟩⟩ <;>
    simp [SIP.direction, SIP2.direction, *]

/-- Witness for C6 on three concrete blocks, one per direction. -/
theorem c6_witness :
    SIP.direction ("Incoming SIP Message").data = "Incoming"
    ∧ SIP.direction ("Outgoing SIP Message").data = "Outgoing"
    ∧ (SIP.direction ("hello").data = "Internal"
        ∧ SIP2.direction ("hello").data = "") :=
  ⟨(c6_direction "Incoming SIP Message").1 (by decide),
   (c6_direction "Outgoing SIP Message").2.1 (by decide) (by decide),
   (c6_direction "hello").2.2 (by decide) (by decide)⟩

/-- The counting step bumps `total_attempted_calls` exactly on rows with
positive duration. -/
theorem countCall_total (c : TeasmLogsV3.CallCounters) (row : Nat × ℚ) :
    (TeasmLogsV3.countCall c row).total_attempted_calls =
      c.total_attempted_calls
        + (if TeasmLogsV3.attemptedP row then 1 else 0) := by
  by_cases h : 0 < row.2
  · simp only [TeasmLogsV3.countCall, TeasmLogsV3.attemptedP,
      decide_eq_true_eq, h, if_true]
    split_ifs <;> rfl
  · simp [TeasmLogsV3.countCall, TeasmLogsV3.attemptedP, h]

/-- The counting step bumps `successful_calls` exactly on attempted rows
classified SUCCESS. -/
theorem countCall_succ (c : TeasmLogsV3.CallCounters) (row : Nat × ℚ) :
    (TeasmLogsV3.countCall c row).successful_calls =
      c.successful_calls
        + (if TeasmLogsV3.successfulP row then 1 else 0) := by
  by_cases h : 0 < row.2
  · by_cases hs : TeasmLogsV3.determine_call_status row.1 = CallStatus.SUCCESS
    · simp [TeasmLogsV3.countCall, TeasmLogsV3.successfulP, h, hs]
    · simp only [TeasmLogsV3.countCall, TeasmLogsV3.successfulP,
        decide_eq_true_eq]
      rw [if_pos h, if_neg hs,
        if_neg (fun hc => hs (And.right hc))]
      split_ifs <;> rfl
  · simp [TeasmLogsV3.countCall, TeasmLogsV3.successfulP, h]

/-- Folding the counting loop counts attempted and successful rows. -/
theorem countCall_foldl (rows : List (Nat × ℚ)) :
    ∀ c : TeasmLogsV3.CallCounters,
      ((rows.foldl TeasmLogsV3.countCall c).total_attempted_calls =
        c.total_attempted_calls + rows.countP TeasmLogsV3.attemptedP)
      ∧ ((rows.foldl TeasmLogsV3.countCall c).successful_calls =
        c.successful_calls + rows.countP TeasmLogsV3.successfulP) := by
  induction rows with
  | nil => intro c; simp
  | cons r rows ih =>
    intro c
    simp only [List.foldl_cons, List.countP_cons]
    obtain ⟨ht, hs⟩ := ih (TeasmLogsV3.countCall c r)
    constructor
    · rw [ht, countCall_total]
      by_cases h : TeasmLogsV3.attemptedP r
      · simp only [h, if_true]
        omega
      · simp only [h, if_false, Bool.false_eq_true]
        omega
    · rw [hs, countCall_succ]
      by_cases h : TeasmLogsV3.successfulP r
      · simp only [h, if_true]
        omega
      · simp only [h, if_false, Bool.false_eq_true]
        omega

/-- The success-rate statistic equals the spec formula: successful over
attempted times 100, rounded to two decimals, 0 when nothing was
attempted. -/
theorem successRate_formula (rows : List (Nat × ℚ)) :
    TeasmLogsV3.successRate rows =
      round2 (if 0 < rows.countP TeasmLogsV3.attemptedP then
          (rows.countP TeasmLogsV3.successfulP : ℚ)
            / (rows.countP TeasmLogsV3.attemptedP : ℚ) * 100
        else 0) := by
  obtain ⟨ht, hs⟩ := countCall_foldl rows {}
  simp only [TeasmLogsV3.successRate, ht, hs, Nat.zero_add]

/-- On rows that are all attempted and all classified SUCCESS or FAILED,
the two counts partition the list. -/
theorem countP_success_failed (rows : List (Nat × ℚ))
    (hd : ∀ r ∈ rows, (0:ℚ) < r.2)
    (hs : ∀ r ∈ rows,
      TeasmLogsV3.determine_call_status r.1 = CallStatus.SUCCESS
      ∨ TeasmLogsV3.determine_call_status r.1 = CallStatus.FAILED) :
    rows.countP TeasmLogsV3.successfulP + rows.countP TeasmLogsV3.failedP
      = rows.length := by
  induction rows with
  | nil => simp
  | cons r rows ih =>
    simp only [List.countP_cons, List.length_cons]
    have hdr : (0:ℚ) < r.2 := hd r (by simp)
    have ihh := ih (fun x hx => hd x (by simp [hx]))
      (fun x hx => hs x (by simp [hx]))
    have hne : CallStatus.SUCCESS ≠ CallStatus.FAILED := by decide
    have hne2 : CallStatus.FAILED ≠ CallStatus.SUCCESS := by decide
    rcases hs r (by simp) with h | h <;>
      · simp [TeasmLogsV3.successfulP, TeasmLogsV3.failedP, h, hdr, hne, hne2]
        omega

/-- The even-split scenario: all rows attempted, statuses only SUCCESS or
FAILED in equal numbers, gives a 50 percent success rate. -/
theorem successRate_even (rows : List (Nat × ℚ)) (hne : rows ≠ [])
    (hd : ∀ r ∈ rows, (0:ℚ) < r.2)
    (hs : ∀ r ∈ rows,
      TeasmLogsV3.determine_call_status r.1 = CallStatus.SUCCESS
      ∨ TeasmLogsV3.determine_call_status r.1 = CallStatus.FAILED)
    (heq : rows.countP TeasmLogsV3.successfulP
            = rows.countP TeasmLogsV3.failedP) :
    TeasmLogsV3.successRate rows = 50 := by
  have hatt : rows.countP TeasmLogsV3.attemptedP = rows.length :=
    List.countP_eq_length.2
      (fun r hr => by simp [TeasmLogsV3.attemptedP, hd r hr])
  have hsum := countP_success_failed rows hd hs
  have hlen : 0 < rows.length := List.length_pos.2 hne
  have h2s : rows.length = 2 * rows.countP TeasmLogsV3.successfulP := by omega
  have hs0 : 0 < rows.countP TeasmLogsV3.successfulP := by omega
  rw [successRate_formula, hatt, if_pos hlen, h2s]
  have hq : ((rows.countP TeasmLogsV3.successfulP : ℚ)) ≠ 0 :=
    Nat.cast_ne_zero.2 (by omega)
  have key : ((rows.countP TeasmLogsV3.successfulP : ℚ))
      / ((2 * rows.countP TeasmLogsV3.successfulP : Nat) : ℚ) * 100 = 50 := by
    push_cast
    field_simp
    ring
  rw [key]
  have h50 : ((50:ℚ) * 100) = ((5000:ℤ):ℚ) := by norm_num
  rw [round2, h50, round_intCast]
  norm_num

/-- Claim C5: the aggregator's success rate is successful over attempted
times 100 rounded to two decimals, with attempted the rows of positive
duration and successful the attempted rows classified SUCCESS; the empty
list gives rate 0 with no division by zero, and rows evenly split between
SUCCESS and FAILED, all attempted, give rate 50. -/
theorem c5_success_rate :
    (∀ rows : List (Nat × ℚ),
      TeasmLogsV3.successRate rows =
        round2 (if 0 < rows.countP TeasmLogsV3.attemptedP then
            (rows.countP TeasmLogsV3.successfulP : ℚ)
              / (rows.countP TeasmLogsV3.attemptedP : ℚ) * 100
          else 0))
    ∧ TeasmLogsV3.successRate [] = 0
    ∧ (∀ rows : List (Nat × ℚ), rows ≠ [] →
        (∀ r ∈ rows, (0:ℚ) < r.2) →
        (∀ r ∈ rows,
          TeasmLogsV3.determine_call_status r.1 = CallStatus.SUCCESS
          ∨ TeasmLogsV3.determine_call_status r.1 = CallStatus.FAILED) →
        rows.countP TeasmLogsV3.successfulP
          = rows.countP TeasmLogsV3.failedP →
        TeasmLogsV3.successRate rows = 50) := by
  refine ⟨successRate_formula, ?_, successRate_even⟩
  norm_num [TeasmLogsV3.successRate, round2]

/-- Witness for C5: one successful and one failed attempted call give a
50 percent success rate. -/
theorem c5_witness :
    TeasmLogsV3.successRate [(200, 1), (404, 1)] = 50 :=
  c5_success_rate.2.2 [(200, 1), (404, 1)] (by decide) (by decide)
    (by decide) (by decide)

/-- A prefix shape match survives appending characters. -/
theorem shapeMatch_append (ps : List (Char → Bool)) :
    ∀ cs ds, shapeMatch ps cs = true → shapeMatch ps (cs ++ ds) = true := by
  induction ps with
  | nil => intro cs ds _; rfl
  | cons p ps ih =>
    intro cs ds h
    cases cs with
    | nil => exact absurd h (by simp [shapeMatch])
    | cons c cs =>
      simp only [shapeMatch, List.cons_append, Bool.and_eq_true] at h ⊢
      exact ⟨h.1, ih cs ds h.2⟩

/-- A non-empty shape match pins down the first character. -/
theorem shapeMatch_head (p : Char → Bool) (ps : List (Char → Bool))
    (cs : List Char) (h : shapeMatch (p :: ps) cs = true) :
    ∃ c cs2, cs = c :: cs2 ∧ p c = true := by
  cases cs with
  | nil => exact absurd h (by simp [shapeMatch])
  | cons c cs2 =>
    simp only [shapeMatch, Bool.and_eq_true] at h
    exact ⟨c, cs2, rfl, h.1⟩

/-- Decimal digits are not whitespace. -/
theorem digit_not_whitespace (c : Char) (h : c.isDigit = true) :
    c.isWhitespace = false := by
  by_contra hw
  rw [Bool.not_eq_false] at hw
  simp only [Char.isWhitespace, Bool.or_eq_true, decide_eq_true_eq,
    beq_iff_eq] at hw
  rcases hw with (((h1 | h1) | h1) | h1) <;> subst h1 <;>
    exact absurd h (by decide)

/-- Joining a non-empty block keeps its first line as a data prefix. -/
theorem joinLines_cons_data (l : String) (ls : List String) :
    ∃ tail, (joinLines (l :: ls)).data = l.data ++ tail := by
  cases ls with
  | nil => exact ⟨[], by simp [joinLines]⟩
  | cons l2 ls2 =>
    refine ⟨'\n' :: (joinLines (l2 :: ls2)).data, ?_⟩
    have hnl : ("\n").data = ['\n'] := rfl
    simp [joinLines, String.data_append, hnl, List.append_assoc]

/-- A block whose first line is timestamp-led is itself timestamp-led. -/
theorem isTimestampLine_join (l : String) (ls : List String)
    (h : isTimestampLine l = true) :
    isTimestampLine (joinLines (l :: ls)) = true := by
  obtain ⟨tail, ht⟩ := joinLines_cons_data l ls
  simp only [isTimestampLine] at h ⊢
  rw [ht]
  exact shapeMatch_append tsPats l.data tail h

/-- A timestamp-led block is not whitespace-only. -/
theorem stripEmpty_of_ts (b : String) (h : isTimestampLine b = true) :
    stripEmpty b = false := by
  simp only [isTimestampLine, tsPats] at h
  obtain ⟨c, cs2, hcs, hd⟩ := shapeMatch_head Char.isDigit _ b.data h
  simp only [stripEmpty, hcs, List.all_cons]
  rw [digit_not_whitespace c hd]
  rfl

/-- Folding the segmentation step over a run of timestamp-led lines from a
singleton current block: every line but the last flushes a singleton
block, and the last stays current. -/
theorem seg_ts_run (ts : List String) :
    ∀ msgs a, (∀ l ∈ ts, isTimestampLine l = true) →
      List.foldl SIP.segmentStep (msgs, [a]) ts =
        (msgs ++ (a :: ts).dropLast, [ts.getLastD a]) := by
  induction ts with
  | nil => intro msgs a _; simp
  | cons t ts ih =>
    intro msgs a h
    have hstep : SIP.segmentStep (msgs, [a]) t = (msgs ++ [a], [t]) := by
      simp [SIP.segmentStep, h t (by simp), joinLines]
    simp only [List.foldl_cons, hstep]
    rw [ih (msgs ++ [a]) t (fun l hl => h l (by simp [hl]))]
    rw [List.dropLast_cons₂, List.getLastD_cons]
    simp [List.append_assoc]

/-- Folding the segmentation step over non-timestamp lines only appends
them to the current block. -/
theorem seg_rest_run (rest : List String) :
    ∀ msgs cur, (∀ l ∈ rest, isTimestampLine l = false) →
      List.foldl SIP.segmentStep (msgs, cur) rest = (msgs, cur ++ rest) := by
  induction rest with
  | nil => intro msgs cur _; simp
  | cons r rest ih =>
    intro msgs cur h
    have hstep : SIP.segmentStep (msgs, cur) r = (msgs, cur ++ [r]) := by
      simp [SIP.segmentStep, h r (by simp)]
    simp only [List.foldl_cons, hstep]
    rw [ih msgs (cur ++ [r]) (fun l hl => h l (by simp [hl]))]
    simp

/-- `getLastD` picks a member of the extended list. -/
theorem getLastD_mem_cons (l : List String) :
    ∀ a, l.getLastD a ∈ a :: l := by
  induction l with
  | nil => intro a; simp [List.getLastD]
  | cons b l ih =>
    intro a
    rw [List.getLastD_cons]
    exact List.mem_cons_of_mem a (ih b)

/-- Segmentation of a non-empty run of timestamp-led lines followed by a
tail of non-timestamp lines, before the empty-block filter resolves: each
leading line becomes its own block, the tail glues to the last. -/
theorem segmentLines_run (t : String) (ts rest : List String)
    (h1 : ∀ l ∈ t :: ts, isTimestampLine l = true)
    (h2 : ∀ l ∈ rest, isTimestampLine l = false) :
    SIP.segmentLines ((t :: ts) ++ rest) =
      (t :: ts).dropLast ++ [joinLines (ts.getLastD t :: rest)] := by
  simp only [SIP.segmentLines]
  rw [List.cons_append, List.foldl_cons]
  have hstep : SIP.segmentStep ([], []) t = ([], [t]) := by
    simp [SIP.segmentStep, h1 t (by simp)]
  rw [hstep, List.foldl_append]
  rw [seg_ts_run ts [] t (fun l hl => h1 l (by simp [hl]))]
  rw [seg_rest_run rest ([] ++ (t :: ts).dropLast) [ts.getLastD t] h2]
  have hcur : ([ts.getLastD t] ++ rest : List String) ≠ [] := by simp
  simp only [List.nil_append, hcur, if_pos, ne_eq, not_false_iff]
  rw [List.singleton_append]
  apply List.filter_eq_self.2
  intro b hb
  rcases List.mem_append.1 hb with hb | hb
  · have : b ∈ t :: ts := (List.dropLast_sublist (t :: ts)).subset hb
    rw [stripEmpty_of_ts b (h1 b this)]
    rfl
  · rw [List.mem_singleton.1 hb]
    have hlast : isTimestampLine (ts.getLastD t) = true :=
      h1 (ts.getLastD t) (getLastD_mem_cons ts t)
    rw [stripEmpty_of_ts _ (isTimestampLine_join (ts.getLastD t) rest hlast)]
    rfl

/-- Segmentation of lines with no timestamp-led line at all: one block
holding everything, subject only to the empty-block filter. -/
theorem segmentLines_none (lines : List String) (hne : lines ≠ [])
    (h : ∀ l ∈ lines, isTimestampLine l = false) :
    SIP.segmentLines lines =
      List.filter (fun m => !(stripEmpty m)) [joinLines lines] := by
  simp only [SIP.segmentLines]
  rw [show lines.foldl SIP.segmentStep ([], []) = (([] : List String), [] ++ lines)
    from seg_rest_run lines [] [] h]
  simp [hne]

/-- `splitLines` never returns the empty list. -/
theorem splitLines_ne_nil (cs : List Char) : splitLines cs ≠ [] := by
  cases cs with
  | nil => simp [splitLines]
  | cons c cs =>
    by_cases h : c = '\n'
    · simp [splitLines, h]
    · simp only [splitLines, if_neg h]
      cases hs : splitLines cs with
      | nil => simp
      | cons l ls => simp

/-- Joining the split of a character list restores it. -/
theorem joinChars_splitLines (cs : List Char) :
    joinChars (splitLines cs) = cs := by
  induction cs with
  | nil => rfl
  | cons c cs ih =>
    by_cases h : c = '\n'
    · subst h
      simp only [splitLines, if_pos rfl]
      cases hs : splitLines cs with
      | nil => exact absurd hs (splitLines_ne_nil cs)
      | cons l ls =>
        rw [hs] at ih
        show joinChars ([] :: l :: ls) = '\n' :: cs
        simp only [joinChars, List.nil_append]
        rw [ih]
    · simp only [splitLines, if_neg h]
      cases hs : splitLines cs with
      | nil => exact absurd hs (splitLines_ne_nil cs)
      | cons l ls =>
        rw [hs] at ih
        cases ls with
        | nil =>
          simp only [joinChars] at ih ⊢
          rw [ih]
        | cons l2 ls2 =>
          simp only [joinChars] at ih ⊢
          rw [List.cons_append, ih]

/-- `joinLines` computed through character lists. -/
theorem joinLines_data (ls : List String) :
    (joinLines ls).data = joinChars (ls.map String.data) := by
  induction ls with
  | nil => rfl
  | cons l ls ih =>
    cases ls with
    | nil => rfl
    | cons l2 ls2 =>
      have hnl : ("\n").data = ['\n'] := rfl
      simp only [joinLines, joinChars, List.map_cons, String.data_append,
        hnl, List.append_assoc, List.singleton_append, ih]

/-- Joining the line split of a log text restores the text. -/
theorem joinLines_splitLinesStr (text : String) :
    joinLines (splitLinesStr text) = text := by
  apply String.ext
  rw [joinLines_data]
  have hmap : (splitLinesStr text).map String.data = splitLines text.data := by
    simp only [splitLinesStr, List.map_map]
    have hcomp : String.data ∘ String.mk = id := by funext l; rfl
    rw [hcomp, List.map_id]
  rw [hmap, joinChars_splitLines]

/-- Counterexample for C3 as stated: the empty log text has zero
timestamp-led lines, yet segmentation returns zero blocks, not exactly
one block holding the whole input. -/
theorem c3_counterexample :
    SIP.segment "" = []
    ∧ (∀ l ∈ splitLinesStr "", isTimestampLine l = false)
    ∧ (SIP.segment "").length ≠ 1 := by
  decide

/-- Claim C3 (amended): for a log text whose lines are N >= 1
timestamp-led lines followed by non-timestamp lines, segmentation returns
N blocks, each timestamp-led at position 0; for a text with zero
timestamp-led lines and at least one non-whitespace character it returns
exactly one block holding the whole input (whitespace-only input yields
zero blocks, since blocks empty after trimming are dropped). -/
theorem c3_segmentation :
    (∀ text ts rest, splitLinesStr text = ts ++ rest → ts ≠ [] →
      (∀ l ∈ ts, isTimestampLine l = true) →
      (∀ l ∈ rest, isTimestampLine l = false) →
      (SIP.segment text).length = ts.length
      ∧ ∀ b ∈ SIP.segment text, isTimestampLine b = true)
    ∧ (∀ text, (∀ l ∈ splitLinesStr text, isTimestampLine l = false) →
        stripEmpty text = false → SIP.segment text = [text]) := by
  constructor
  · intro text ts rest hsplit hne h1 h2
    obtain ⟨t, ts2, rfl⟩ := List.exists_cons_of_ne_nil hne
    have hrun := segmentLines_run t ts2 rest h1 h2
    simp only [SIP.segment, hsplit, hrun]
    constructor
    · simp only [List.length_append, List.length_dropLast,
        List.length_cons, List.length_singleton, List.length_nil]
      omega
    · intro b hb
      rcases List.mem_append.1 hb with hb | hb
      · exact h1 b ((List.dropLast_sublist (t :: ts2)).subset hb)
      · rw [List.mem_singleton.1 hb]
        exact isTimestampLine_join _ rest
          (h1 (ts2.getLastD t) (getLastD_mem_cons ts2 t))
  · intro text hall hstrip
    have hne : splitLinesStr text ≠ [] := by
      simp only [splitLinesStr]
      intro hc
      exact splitLines_ne_nil text.data (List.map_eq_nil_iff.1 hc)
    have hid := joinLines_splitLinesStr text
    simp only [SIP.segment]
    rw [segmentLines_none (splitLinesStr text) hne hall, hid,
      List.filter_cons]
    simp [hstrip]

/-- Witness for C3: a two-line text with one timestamp-led line segments
into one block, and a plain word segments into itself. -/
theorem c3_witness :
    (SIP.segment "01:02:03.123 a\nxyz").length = 1
    ∧ SIP.segment "hello" = ["hello"] := by
  refine ⟨?_, c3_segmentation.2 "hello" (by decide) (by decide)⟩
  exact (c3_segmentation.1 "01:02:03.123 a\nxyz" ["01:02:03.123 a"] ["xyz"]
    (by decide) (by decide) (by decide) (by decide)).1
